import Mathlib

/-!
Shallow embedding of the core banking logic of `src/bank.py`
(`Account`, `SavingsAccount`, `CheckingAccount`, `Bank.create_account`,
serialization via `to_dict` / `from_dict`, and the transaction-history
reconciliation loop of `Account.show_transaction_history`).

Modelling conventions:
- Money is `ℚ` (the Python code uses floats; no claim depends on float
  rounding).
- Wall-clock timestamps are passed in as an explicit `String` parameter
  (`now`), since `datetime.now()` is not embeddable.
- Python dictionaries holding serialized accounts become the `Record`
  structure; a missing key is `none` (Python `dict.get` returns `None`).
- `raise NotImplementedError` in the base class's `withdraw` is modelled by
  an `Option` result: `none` means the exception was raised.
- Python's `in`-substring test and `str.split` are re-implemented over
  `List Char` by structural recursion so that all definitions reduce.
-/

namespace BankUCB

/-! ## String helpers mirroring the Python string operations used in bank.py -/

/-- Tests whether `p` occurs at the start of `l` (helper for substring search). -/
def startsWithChars : List Char → List Char → Bool
  | _, [] => true
  | [], _ :: _ => false
  | c :: cs, p :: ps => c = p && startsWithChars cs ps

/-- Tests whether `p` occurs anywhere in `l` (Python `p in l`). -/
def containsChars (p : List Char) : List Char → Bool
  | [] => startsWithChars [] p
  | c :: rest => startsWithChars (c :: rest) p || containsChars p rest

/-- Python `pat in s` on strings. -/
def containsSubstr (s pat : String) : Bool :=
  containsChars pat.toList s.toList

/-- Python `s.split(sep)` for a single-character separator. -/
def splitOnChar (sep : Char) : List Char → List (List Char)
  | [] => [[]]
  | c :: rest =>
    let r := splitOnChar sep rest
    if c = sep then [] :: r
    else
      match r with
      | [] => [[c]]
      | g :: gs => (c :: g) :: gs

/-- Accumulating decimal-digit parse; fails on any non-digit character. -/
def digitsValAux (acc : ℕ) : List Char → Option ℕ
  | [] => some acc
  | c :: cs => if c.isDigit then digitsValAux (10 * acc + (c.toNat - 48)) cs else none

/-- Python `float(s)` restricted to the unsigned decimal literals that the
legacy transaction descriptions of bank.py actually carry
(`digits`, `digits.digits`, `digits.`, `.digits`); anything else fails. -/
def parseFloatChars (cs : List Char) : Option ℚ :=
  match splitOnChar '.' cs with
  | [a] =>
    if a.isEmpty then none
    else (digitsValAux 0 a).map (fun n => (n : ℚ))
  | [a, b] =>
    if a.isEmpty && b.isEmpty then none
    else
      match digitsValAux 0 a, digitsValAux 0 b with
      | some n, some f => some ((n : ℚ) + (f : ℚ) / (10 : ℚ) ^ b.length)
      | _, _ => none
  | _ => none

/-- Python `float(details.split('$')[1])`: `none` models the
IndexError/ValueError that a missing `$` or a non-numeric tail raises. -/
def parseAmount (details : String) : Option ℚ :=
  match splitOnChar '$' details.toList with
  | _ :: second :: _ => parseFloatChars second
  | _ => none

/-! ## Ledger entries (the transaction dictionaries of bank.py) -/

/-- One transaction dictionary. New-format entries (those written by
`create_timestamped_entry` and the two `withdraw` methods) have
`action = some _` and `runningBalance = some _`; legacy entries carry only
`details` (`action = none`). `amount` defaults to `0` for legacy entries;
the code never reads it there. -/
structure Entry where
  timestamp : String := ""
  action : Option String := none
  amount : ℚ := 0
  runningBalance : Option ℚ := none
  details : String := ""
deriving DecidableEq, Repr

/-- Embeds `Account.create_timestamped_entry` (bank.py lines 112-119). -/
def create_timestamped_entry (now action : String) (amount running_balance : ℚ) : Entry :=
  { timestamp := now
    action := some action
    amount := amount
    runningBalance := some running_balance
    details := action ++ ": $" ++ toString amount }

/-! ## Accounts -/

/-- The runtime Python class of an account object: `Account` itself
(constructible only through the fallback branch of `Account.from_dict`),
`SavingsAccount`, or `CheckingAccount`. -/
inductive Variant where
  | base
  | savings
  | checking
deriving DecidableEq, Repr

/-- The state of one account object (the `self._*` attributes). -/
structure Account where
  name : Option String
  accountNumber : Option String
  email : Option String
  balance : ℚ
  accountType : String
  streetAddress : Option String
  postalCode : Option String
  city : Option String
  country : Option String
  transactions : List Entry
  variant : Variant
deriving DecidableEq, Repr

/-- Embeds `Account.__init__` (bank.py lines 82-95): sets the attributes and
appends the creation ledger entry. The `variant` parameter records which
Python class is being constructed. -/
def Account.init (variant : Variant) (name accountNumber email : Option String)
    (initial_balance : ℚ) (account_type : String)
    (street_address postal_code city country : Option String) (now : String) : Account :=
  { name := name
    accountNumber := accountNumber
    email := email
    balance := initial_balance
    accountType := account_type
    streetAddress := street_address
    postalCode := postal_code
    city := city
    country := country
    transactions :=
      [create_timestamped_entry now "Account created with balance" initial_balance initial_balance]
    variant := variant }

/-- Embeds `SavingsAccount.__init__` (bank.py lines 252-260). -/
def SavingsAccount.init (name accountNumber email : Option String) (initial_balance : ℚ)
    (street_address postal_code city country : Option String) (now : String) : Account :=
  Account.init Variant.savings name accountNumber email initial_balance "Savings"
    street_address postal_code city country now

/-- Embeds `CheckingAccount.__init__` (bank.py lines 298-306, re-declared
identically at 339-346). -/
def CheckingAccount.init (name accountNumber email : Option String) (initial_balance : ℚ)
    (street_address postal_code city country : Option String) (now : String) : Account :=
  Account.init Variant.checking name accountNumber email initial_balance "Checking"
    street_address postal_code city country now

/-- Embeds `Account.deposit` (bank.py lines 97-106). Returns the Python
return value paired with the updated object. -/
def Account.deposit (a : Account) (now : String) (amount : ℚ) : Bool × Account :=
  if amount > 0 then
    let b := a.balance + amount
    (true,
      { a with
          balance := b
          transactions := a.transactions ++ [create_timestamped_entry now "Deposit" amount b] })
  else
    (false, a)

/-- Embeds `SavingsAccount.withdraw` (bank.py lines 262-280): per-transaction
ceiling `WITHDRAWAL_LIMIT = 100`, then positivity and sufficient funds. The
inline dictionary it appends is exactly `create_timestamped_entry`'s output. -/
def SavingsAccount.withdraw (a : Account) (now : String) (amount : ℚ) : Bool × Account :=
  if amount > 100 then (false, a)
  else if amount > 0 ∧ amount ≤ a.balance then
    let b := a.balance - amount
    (true,
      { a with
          balance := b
          transactions := a.transactions ++ [create_timestamped_entry now "Withdrawal" amount b] })
  else
    (false, a)

/-- Embeds `CheckingAccount.withdraw` (bank.py lines 308-322): no ceiling. -/
def CheckingAccount.withdraw (a : Account) (now : String) (amount : ℚ) : Bool × Account :=
  if amount > 0 ∧ amount ≤ a.balance then
    let b := a.balance - amount
    (true,
      { a with
          balance := b
          transactions := a.transactions ++ [create_timestamped_entry now "Withdrawal" amount b] })
  else
    (false, a)

/-- Dynamic dispatch of `withdraw`: the base class (bank.py lines 108-110)
raises `NotImplementedError`, modelled as `none`. -/
def Account.withdraw (a : Account) (now : String) (amount : ℚ) : Option (Bool × Account) :=
  match a.variant with
  | Variant.savings => some (SavingsAccount.withdraw a now amount)
  | Variant.checking => some (CheckingAccount.withdraw a now amount)
  | Variant.base => none

/-! ## Serialization: `to_dict` / `from_dict` -/

/-- A serialized account record (one value of the `bank_data.json` mapping).
Every field is optional because `from_dict` reads the dictionary with
`data.get(...)`. -/
structure Record where
  name : Option String := none
  accountNumber : Option String := none
  email : Option String := none
  balance : Option ℚ := none
  accountType : Option String := none
  streetAddress : Option String := none
  postalCode : Option String := none
  city : Option String := none
  country : Option String := none
  transactions : Option (List Entry) := none
deriving DecidableEq, Repr

/-- Embeds `Account.to_dict` (bank.py lines 213-226). -/
def Account.to_dict (a : Account) : Record :=
  { name := a.name
    accountNumber := a.accountNumber
    email := a.email
    balance := some a.balance
    accountType := some a.accountType
    streetAddress := a.streetAddress
    postalCode := a.postalCode
    city := a.city
    country := a.country
    transactions := some a.transactions }

/-- Embeds `SavingsAccount.from_dict` (bank.py lines 282-295): builds the
account through the constructor (which appends a creation entry), then
overwrites `_transactions` wholesale with `data.get("transactions", [])`. -/
def SavingsAccount.from_dict (d : Record) (now : String) : Account :=
  let a := SavingsAccount.init d.name d.accountNumber d.email (d.balance.getD 0)
    d.streetAddress d.postalCode d.city d.country now
  { a with transactions := d.transactions.getD [] }

/-- Embeds `CheckingAccount.from_dict` (bank.py lines 324-337, re-declared
identically at 348-361). -/
def CheckingAccount.from_dict (d : Record) (now : String) : Account :=
  let a := CheckingAccount.init d.name d.accountNumber d.email (d.balance.getD 0)
    d.streetAddress d.postalCode d.city d.country now
  { a with transactions := d.transactions.getD [] }

/-- Embeds the static `Account.from_dict` (bank.py lines 228-247): dispatches
on `data.get("account_type")`; any value other than `"Savings"` or
`"Checking"` (including a missing one) falls through to constructing a plain
base `Account` whose type label is `data.get("account_type", "Savings")`. -/
def Account.from_dict (d : Record) (now : String) : Account :=
  if d.accountType = some "Savings" then SavingsAccount.from_dict d now
  else if d.accountType = some "Checking" then CheckingAccount.from_dict d now
  else
    let a := Account.init Variant.base d.name d.accountNumber d.email (d.balance.getD 0)
      (d.accountType.getD "Savings") d.streetAddress d.postalCode d.city d.country now
    { a with transactions := d.transactions.getD [] }

/-! ## Email validation and `Bank.create_account` -/

/-- Character class `[a-zA-Z0-9_.+-]` (local part of the email pattern). -/
def isLocalChar (c : Char) : Bool :=
  c.isAlpha || c.isDigit || c = '_' || c = '.' || c = '+' || c = '-'

/-- Character class `[a-zA-Z0-9-]` (domain label of the email pattern). -/
def isDomainChar (c : Char) : Bool :=
  c.isAlpha || c.isDigit || c = '-'

/-- Character class `[a-zA-Z0-9-.]` (the part after the dot). -/
def isTldChar (c : Char) : Bool :=
  c.isAlpha || c.isDigit || c = '-' || c = '.'

/-- Embeds `re.match` of the pattern
`(^[a-zA-Z0-9_.+-]+@[a-zA-Z0-9-]+\.[a-zA-Z0-9-.]+$)` used by
`Bank.create_account` (bank.py line 386). Because no character class contains
`@`, and the middle class contains no `.`, greedy matching with backtracking
is equivalent to this deterministic scan. -/
def matchEmail (s : String) : Bool :=
  let cs := s.toList
  let localPart := cs.takeWhile isLocalChar
  match cs.dropWhile isLocalChar with
  | '@' :: r2 =>
    let domainPart := r2.takeWhile isDomainChar
    match r2.dropWhile isDomainChar with
    | '.' :: r3 =>
      !localPart.isEmpty && !domainPart.isEmpty && !r3.isEmpty && r3.all isTldChar
    | _ => false
  | _ => false

/-- The validation failures `Bank.create_account` can report, in source
order. -/
inductive CreateErr where
  | invalidEmail
  | duplicateEmail
  | emptyField
  | negativeBalance
  | badType
deriving DecidableEq, Repr

/-- Embeds `Bank.create_account` (bank.py lines 383-430) acting on the
in-memory store `self.accounts` (modelled as the insertion-ordered list of
account objects). The fresh number produced by `generate_account_number` is
passed in as `accountNumber`; saving to disk and the best-effort notification
email have no effect on the store and are omitted. Returns the reported
validation failure (if any) together with the resulting store. -/
def Bank.create_account (accounts : List Account) (name email account_type : String)
    (initial_balance : ℚ) (street_address postal_code city country : Option String)
    (accountNumber now : String) : Option CreateErr × List Account :=
  if ¬ matchEmail email then (some CreateErr.invalidEmail, accounts)
  else if accounts.any (fun a => a.email = some email) then
    (some CreateErr.duplicateEmail, accounts)
  else if name = "" ∨ email = "" then (some CreateErr.emptyField, accounts)
  else if initial_balance < 0 then (some CreateErr.negativeBalance, accounts)
  else if ¬ (account_type = "Checking" ∨ account_type = "Savings") then
    (some CreateErr.badType, accounts)
  else
    let newAccount :=
      if account_type = "Checking" then
        CheckingAccount.init (some name) (some accountNumber) (some email) initial_balance
          street_address postal_code city country now
      else
        SavingsAccount.init (some name) (some accountNumber) (some email) initial_balance
          street_address postal_code city country now
    (none, accounts ++ [newAccount])

/-! ## Transaction-history reconciliation (`Account.show_transaction_history`) -/

/-- One row of the statement table, with the amount kept numeric and the
sign convention (`negated` = rendered with a leading minus, i.e. the action
contains `"Withdrawal"`) recorded separately from string formatting. -/
structure HistRow where
  timestamp : String
  action : String
  amount : ℚ
  negated : Bool
  running_balance : ℚ
deriving DecidableEq, Repr

/-- The two ways the history loop can raise: `unboundLocal` models Python's
UnboundLocalError when an unrecognized legacy entry is the first one (so the
loop reads `action`/`amount` before any assignment), and `parseFailure`
models the IndexError/ValueError of `float(details.split('$')[1])`. -/
inductive HistErr where
  | unboundLocal
  | parseFailure
deriving DecidableEq, Repr

/-- The loop body of `Account.show_transaction_history` (bank.py lines
166-201). The state carries the Python locals `action` and `amount` (as
`Option`, `none` = not yet assigned) and `running_balance`. -/
def histStep (state : Option String × Option ℚ × ℚ) (e : Entry) :
    Except HistErr ((Option String × Option ℚ × ℚ) × HistRow) :=
  let prevAction := state.1
  let prevAmount := state.2.1
  let rb := state.2.2
  match e.action with
  | none =>
    if containsSubstr e.details "Account created with balance" then
      match parseAmount e.details with
      | some amt =>
        Except.ok ((some "Account created", some amt, amt),
          { timestamp := e.timestamp, action := "Account created", amount := amt
            negated := containsSubstr "Account created" "Withdrawal", running_balance := amt })
      | none => Except.error HistErr.parseFailure
    else if containsSubstr e.details "Deposited" then
      match parseAmount e.details with
      | some amt =>
        Except.ok ((some "Deposit", some amt, rb + amt),
          { timestamp := e.timestamp, action := "Deposit", amount := amt
            negated := containsSubstr "Deposit" "Withdrawal", running_balance := rb + amt })
      | none => Except.error HistErr.parseFailure
    else if containsSubstr e.details "Withdrew" then
      match parseAmount e.details with
      | some amt =>
        Except.ok ((some "Withdrawal", some amt, rb - amt),
          { timestamp := e.timestamp, action := "Withdrawal", amount := amt
            negated := containsSubstr "Withdrawal" "Withdrawal", running_balance := rb - amt })
      | none => Except.error HistErr.parseFailure
    else
      match prevAction, prevAmount with
      | some act, some amt =>
        Except.ok ((some act, some amt, rb),
          { timestamp := e.timestamp, action := act, amount := amt
            negated := containsSubstr act "Withdrawal", running_balance := rb })
      | _, _ => Except.error HistErr.unboundLocal
  | some act =>
    let rb2 := e.runningBalance.getD rb
    Except.ok ((some act, some e.amount, rb2),
      { timestamp := e.timestamp, action := act, amount := e.amount
        negated := containsSubstr act "Withdrawal", running_balance := rb2 })

/-- Runs the history loop over a list of entries from a given state. -/
def historyRowsAux (state : Option String × Option ℚ × ℚ) :
    List Entry → Except HistErr (List HistRow)
  | [] => Except.ok []
  | e :: rest =>
    match histStep state e with
    | Except.error err => Except.error err
    | Except.ok (state2, row) => (historyRowsAux state2 rest).map (fun rs => row :: rs)

/-- Embeds the row-building part of `Account.show_transaction_history`
(bank.py lines 146-211): `running_balance` starts at `0` and the locals
`action` and `amount` start unassigned. -/
def show_transaction_history (a : Account) : Except HistErr (List HistRow) :=
  historyRowsAux (none, none, 0) a.transactions

/-! ## Sequences of deposit/withdraw calls -/

/-- A deposit or withdraw call, with the wall-clock timestamp at which it is
made. -/
inductive Op where
  | dep (now : String) (amount : ℚ)
  | wd (now : String) (amount : ℚ)
deriving DecidableEq, Repr

/-- Applies one call to an account, keeping the resulting object whether or
not the call succeeded (a failed call returns the object unchanged, as does
the base class's `NotImplementedError`, which cannot arise for the
Savings/Checking variants). -/
def applyOp (a : Account) : Op → Account
  | Op.dep now amount => (Account.deposit a now amount).2
  | Op.wd now amount =>
    match Account.withdraw a now amount with
    | some r => r.2
    | none => a

/-- Applies a sequence of calls in order. -/
def runOps (a : Account) (ops : List Op) : Account := ops.foldl applyOp a

/-- The `running_balance` of the last ledger entry, if any. -/
def lastRB : List Entry → Option ℚ
  | [] => none
  | [e] => e.runningBalance
  | _ :: e :: rest => lastRB (e :: rest)

/-- An account value differing from a default one only in its transaction
list; used to evaluate the transaction-history loop on concrete logs. -/
def accountWithTransactions (ts : List Entry) : Account :=
  { name := none
    accountNumber := none
    email := none
    balance := 0
    accountType := "Savings"
    streetAddress := none
    postalCode := none
    city := none
    country := none
    transactions := ts
    variant := Variant.savings }

/-- A concrete well-formed Checking record, used as a round-trip instance. -/
def checkingRecord : Record :=
  { accountType := some "Checking"
    balance := some 250
    transactions := some [{ details := "Deposited $250" }] }

/-- A concrete record with the unrecognized kind `"Premium"`. -/
def premiumRecord : Record :=
  { accountType := some "Premium"
    balance := some 100
    transactions := some [] }

/-- A concrete record with no `account_type` field at all. -/
def kindlessRecord : Record :=
  { balance := some 100 }

/-- A concrete record whose stored balance (`999`) disagrees with the
`running_balance` (`5`) of its only ledger entry. -/
def mismatchedRecord : Record :=
  { accountType := some "Savings"
    balance := some 999
    transactions := some [{ runningBalance := some 5 }] }

/-- A legacy-format ledger entry: only timestamp and free-text details are
present (`amount`/`runningBalance` are the unread defaults). -/
def legacyEntry (ts d : String) (eamt : ℚ) (erb : Option ℚ) : Entry :=
  { timestamp := ts
    action := none
    amount := eamt
    runningBalance := erb
    details := d }

/-! ## Helper lemmas -/

theorem lastRB_append (l : List Entry) (e : Entry) :
    lastRB (l ++ [e]) = e.runningBalance := by
  induction l with
  | nil => rfl
  | cons x xs ih =>
    cases xs with
    | nil => rfl
    | cons y ys => simpa [lastRB] using ih

theorem head?_append_singleton (l : List Entry) (e : Entry) (h : l ≠ []) :
    (l ++ [e]).head? = l.head? := by
  cases l with
  | nil => exact absurd rfl h
  | cons x xs => rfl

/-! ## Claim theorems -/

/-- Claim C4: for every account of either variant, `deposit(amount)` with
`amount ≤ 0` returns `False` and leaves the balance and the transaction log
(indeed the whole object) unchanged; with `amount > 0` it returns `True`,
increases the balance by `amount`, and appends exactly one Deposit ledger
entry carrying the new balance. -/
theorem deposit_spec (a : Account) (now : String) (amount : ℚ) :
    (amount ≤ 0 → Account.deposit a now amount = (false, a)) ∧
    (0 < amount →
      Account.deposit a now amount = (true,
        { a with
            balance := a.balance + amount
            transactions := a.transactions ++
              [create_timestamped_entry now "Deposit" amount (a.balance + amount)] })) := by
  constructor
  · intro h
    simp [Account.deposit, not_lt.mpr h]
  · intro h
    simp [Account.deposit, h]

/-- Claim C4 witness: depositing `-3` into a freshly created Savings account
fails and leaves it unchanged, and depositing `7` succeeds, raising the
balance from `10` to `17` and appending one Deposit entry at `17`. -/
theorem deposit_spec_witness :
    ((-3 : ℚ) ≤ 0 ∧
      Account.deposit (SavingsAccount.init none none none 10 none none none none "t") "u" (-3) =
        (false, SavingsAccount.init none none none 10 none none none none "t")) ∧
    ((0 : ℚ) < 7 ∧
      Account.deposit (SavingsAccount.init none none none 10 none none none none "t") "u" 7 =
        (true,
          { SavingsAccount.init none none none 10 none none none none "t" with
              balance := (10 : ℚ) + 7
              transactions :=
                (SavingsAccount.init none none none 10 none none none none "t").transactions ++
                  [create_timestamped_entry "u" "Deposit" 7 ((10 : ℚ) + 7)] })) :=
  ⟨⟨by norm_num,
    (deposit_spec (SavingsAccount.init none none none 10 none none none none "t") "u" (-3)).1
      (by norm_num)⟩,
   ⟨by norm_num,
    (deposit_spec (SavingsAccount.init none none none 10 none none none none "t") "u" 7).2
      (by norm_num)⟩⟩

/-- Claim C2: for every Savings-variant account, `withdraw(amount)` fails
(returns `False` with the object unchanged) exactly when `amount > 100` or
`amount ≤ 0` or `amount >` the current balance; otherwise it succeeds,
decreasing the balance by `amount` and appending exactly one Withdrawal entry
carrying the new balance. -/
theorem savings_withdraw_spec (a : Account) (h : a.variant = Variant.savings)
    (now : String) (amount : ℚ) :
    ((amount > 100 ∨ amount ≤ 0 ∨ amount > a.balance) →
      Account.withdraw a now amount = some (false, a)) ∧
    (amount ≤ 100 → 0 < amount → amount ≤ a.balance →
      Account.withdraw a now amount = some (true,
        { a with
            balance := a.balance - amount
            transactions := a.transactions ++
              [create_timestamped_entry now "Withdrawal" amount (a.balance - amount)] })) := by
  constructor
  · intro hfail
    by_cases h100 : amount > 100
    · simp [Account.withdraw, h, SavingsAccount.withdraw, h100]
    · have hc : ¬ (amount > 0 ∧ amount ≤ a.balance) := by
        rcases hfail with h1 | h1 | h1
        · exact absurd h1 h100
        · intro hp
          linarith [hp.1]
        · intro hp
          linarith [hp.2]
      simp [Account.withdraw, h, SavingsAccount.withdraw, h100, hc]
  · intro h1 h2 h3
    have h100 : ¬ amount > 100 := not_lt.mpr h1
    simp [Account.withdraw, h, SavingsAccount.withdraw, h100, h2, h3]

/-- Claim C2 witness: on a Savings account holding `700`, withdrawing `150`
fails (ceiling) leaving the object unchanged, and withdrawing `60` succeeds,
leaving balance `640` and one appended Withdrawal entry at `640`. -/
theorem savings_withdraw_spec_witness :
    (((150 : ℚ) > 100 ∨ (150 : ℚ) ≤ 0 ∨
        (150 : ℚ) > (SavingsAccount.init none none none 700 none none none none "t").balance) ∧
      Account.withdraw (SavingsAccount.init none none none 700 none none none none "t") "u" 150 =
        some (false, SavingsAccount.init none none none 700 none none none none "t")) ∧
    (Account.withdraw (SavingsAccount.init none none none 700 none none none none "t") "u" 60 =
      some (true,
        { SavingsAccount.init none none none 700 none none none none "t" with
            balance := (SavingsAccount.init none none none 700 none none none none "t").balance - 60
            transactions :=
              (SavingsAccount.init none none none 700 none none none none "t").transactions ++
                [create_timestamped_entry "u" "Withdrawal" 60
                  ((SavingsAccount.init none none none 700 none none none none "t").balance - 60)] })) :=
  ⟨⟨Or.inl (by norm_num),
    (savings_withdraw_spec (SavingsAccount.init none none none 700 none none none none "t")
        rfl "u" 150).1 (Or.inl (by norm_num))⟩,
   (savings_withdraw_spec (SavingsAccount.init none none none 700 none none none none "t")
        rfl "u" 60).2 (by norm_num) (by norm_num)
      (by simp [SavingsAccount.init, Account.init]; norm_num)⟩

/-- Claim C3: for every Checking-variant account, `withdraw(amount)` fails
(returns `False` with the object unchanged) exactly when `amount ≤ 0` or
`amount >` the current balance — there is no per-transaction ceiling, so any
positive amount up to the balance succeeds, however large — and on success
the balance decreases by `amount` and exactly one Withdrawal entry carrying
the new balance is appended. -/
theorem checking_withdraw_spec (a : Account) (h : a.variant = Variant.checking)
    (now : String) (amount : ℚ) :
    ((amount ≤ 0 ∨ amount > a.balance) →
      Account.withdraw a now amount = some (false, a)) ∧
    (0 < amount → amount ≤ a.balance →
      Account.withdraw a now amount = some (true,
        { a with
            balance := a.balance - amount
            transactions := a.transactions ++
              [create_timestamped_entry now "Withdrawal" amount (a.balance - amount)] })) := by
  constructor
  · intro hfail
    have hc : ¬ (amount > 0 ∧ amount ≤ a.balance) := by
      rcases hfail with h1 | h1
      · intro hp
        linarith [hp.1]
      · intro hp
        linarith [hp.2]
    simp [Account.withdraw, h, CheckingAccount.withdraw, hc]
  · intro h1 h2
    simp [Account.withdraw, h, CheckingAccount.withdraw, h1, h2]

/-- Claim C3 witness: on a Checking account holding `0`, withdrawing `50`
fails (insufficient funds) leaving the object unchanged, while on one holding
`100000` a withdrawal of `99999` (far above the Savings ceiling) succeeds. -/
theorem checking_withdraw_spec_witness :
    (((50 : ℚ) ≤ 0 ∨
        (50 : ℚ) > (CheckingAccount.init none none none 0 none none none none "t").balance) ∧
      Account.withdraw (CheckingAccount.init none none none 0 none none none none "t") "u" 50 =
        some (false, CheckingAccount.init none none none 0 none none none none "t")) ∧
    (Account.withdraw
        (CheckingAccount.init none none none 100000 none none none none "t") "u" 99999 =
      some (true,
        { CheckingAccount.init none none none 100000 none none none none "t" with
            balance :=
              (CheckingAccount.init none none none 100000 none none none none "t").balance - 99999
            transactions :=
              (CheckingAccount.init none none none 100000 none none none none "t").transactions ++
                [create_timestamped_entry "u" "Withdrawal" 99999
                  ((CheckingAccount.init none none none 100000 none none none none
                      "t").balance - 99999)] })) :=
  ⟨⟨Or.inr (by simp [CheckingAccount.init, Account.init]),
    (checking_withdraw_spec (CheckingAccount.init none none none 0 none none none none "t")
        rfl "u" 50).1 (Or.inr (by simp [CheckingAccount.init, Account.init]))⟩,
   (checking_withdraw_spec (CheckingAccount.init none none none 100000 none none none none "t")
        rfl "u" 99999).2 (by norm_num)
      (by simp [CheckingAccount.init, Account.init]; norm_num)⟩

theorem applyOp_preserves (a : Account) (op : Op)
    (h : lastRB a.transactions = some a.balance) :
    lastRB (applyOp a op).transactions = some (applyOp a op).balance ∧
    (applyOp a op).transactions.head? = a.transactions.head? := by
  have hne : a.transactions ≠ [] := by
    intro hnil
    rw [hnil] at h
    simp [lastRB] at h
  cases op with
  | dep now amount =>
    by_cases hpos : amount > 0
    · simp [applyOp, Account.deposit, hpos, lastRB_append,
        head?_append_singleton _ _ hne, create_timestamped_entry]
    · simp [applyOp, Account.deposit, hpos, h]
  | wd now amount =>
    cases hv : a.variant with
    | base => simp [applyOp, Account.withdraw, hv, h]
    | savings =>
      by_cases h100 : amount > 100
      · simp [applyOp, Account.withdraw, hv, SavingsAccount.withdraw, h100, h]
      · by_cases hc : amount > 0 ∧ amount ≤ a.balance
        · simp [applyOp, Account.withdraw, hv, SavingsAccount.withdraw, h100, hc,
            lastRB_append, head?_append_singleton _ _ hne, create_timestamped_entry]
        · simp [applyOp, Account.withdraw, hv, SavingsAccount.withdraw, h100, hc, h]
    | checking =>
      by_cases hc : amount > 0 ∧ amount ≤ a.balance
      · simp [applyOp, Account.withdraw, hv, CheckingAccount.withdraw, hc,
          lastRB_append, head?_append_singleton _ _ hne, create_timestamped_entry]
      · simp [applyOp, Account.withdraw, hv, CheckingAccount.withdraw, hc, h]

theorem runOps_preserves (ops : List Op) (a : Account)
    (h : lastRB a.transactions = some a.balance) :
    lastRB (runOps a ops).transactions = some (runOps a ops).balance ∧
    (runOps a ops).transactions.head? = a.transactions.head? := by
  induction ops generalizing a with
  | nil => exact ⟨h, rfl⟩
  | cons op rest ih =>
    have step := applyOp_preserves a op h
    have tail := ih (applyOp a op) step.1
    have hrun : runOps a (op :: rest) = runOps (applyOp a op) rest := rfl
    rw [hrun]
    exact ⟨tail.1, tail.2.trans step.2⟩

/-- Claim C1: for every account (Savings or Checking) created with a
non-negative initial balance, after any sequence of deposit and withdraw
calls (failed ones leave the state unchanged, so the successful ones are the
ones that matter), the balance equals the `running_balance` of the last
ledger entry, the first ledger entry is still the creation entry, and that
creation entry's `running_balance` equals the initial balance. -/
theorem balance_matches_last_ledger_entry
    (name accountNumber email : Option String) (b : ℚ) (hb : 0 ≤ b)
    (sa pc ci co : Option String) (now : String) (a0 : Account)
    (h0 : a0 = SavingsAccount.init name accountNumber email b sa pc ci co now ∨
          a0 = CheckingAccount.init name accountNumber email b sa pc ci co now)
    (ops : List Op) :
    lastRB (runOps a0 ops).transactions = some (runOps a0 ops).balance ∧
    (runOps a0 ops).transactions.head? =
      some (create_timestamped_entry now "Account created with balance" b b) ∧
    ((runOps a0 ops).transactions.head?.bind Entry.runningBalance) = some b := by
  have hinit : lastRB a0.transactions = some a0.balance ∧
      a0.transactions.head? =
        some (create_timestamped_entry now "Account created with balance" b b) := by
    rcases h0 with h0 | h0 <;> subst h0 <;>
      simp [SavingsAccount.init, CheckingAccount.init, Account.init, lastRB,
        create_timestamped_entry]
  have hrun := runOps_preserves ops a0 hinit.1
  refine ⟨hrun.1, hrun.2.trans hinit.2, ?_⟩
  rw [hrun.2.trans hinit.2]
  simp [create_timestamped_entry]

/-- Claim C1 witness: a Savings account opened at `5`, after a deposit of `3`
and a withdrawal of `2`, has balance equal to its last entry's
`running_balance`, and its first entry is still the creation entry at `5`. -/
theorem balance_matches_last_ledger_entry_witness :
    (0 : ℚ) ≤ 5 ∧
    (lastRB (runOps (SavingsAccount.init none none none 5 none none none none "t")
        [Op.dep "u" 3, Op.wd "v" 2]).transactions =
      some (runOps (SavingsAccount.init none none none 5 none none none none "t")
        [Op.dep "u" 3, Op.wd "v" 2]).balance ∧
    (runOps (SavingsAccount.init none none none 5 none none none none "t")
        [Op.dep "u" 3, Op.wd "v" 2]).transactions.head? =
      some (create_timestamped_entry "t" "Account created with balance" 5 5) ∧
    ((runOps (SavingsAccount.init none none none 5 none none none none "t")
        [Op.dep "u" 3, Op.wd "v" 2]).transactions.head?.bind Entry.runningBalance) = some 5) :=
  ⟨by norm_num,
   balance_matches_last_ledger_entry none none none 5 (by norm_num) none none none none "t"
     (SavingsAccount.init none none none 5 none none none none "t") (Or.inl rfl)
     [Op.dep "u" 3, Op.wd "v" 2]⟩

/-- Claim C5: for every serialized record `x` whose `account_type` is
`"Savings"` or `"Checking"` (and which, as every record the program writes,
carries a balance and a transaction list), serializing the account obtained
by deserializing `x` reproduces `x`'s balance, account kind, and full
transaction log, and the deserialized object is the concrete variant named by
`x`'s `account_type` field. -/
theorem serialize_deserialize_round_trip (x : Record) (now : String)
    (hk : x.accountType = some "Savings" ∨ x.accountType = some "Checking")
    (b : ℚ) (hb : x.balance = some b) (ts : List Entry) (ht : x.transactions = some ts) :
    (Account.from_dict x now).to_dict.balance = x.balance ∧
    (Account.from_dict x now).to_dict.accountType = x.accountType ∧
    (Account.from_dict x now).to_dict.transactions = x.transactions ∧
    (x.accountType = some "Savings" → (Account.from_dict x now).variant = Variant.savings) ∧
    (x.accountType = some "Checking" → (Account.from_dict x now).variant = Variant.checking) := by
  rcases hk with hk | hk <;>
    simp [Account.from_dict, hk, SavingsAccount.from_dict, CheckingAccount.from_dict,
      SavingsAccount.init, CheckingAccount.init, Account.init, Account.to_dict, hb, ht]

/-- Claim C5 witness: a concrete Checking record with balance `250` and a
one-entry log round-trips through `from_dict` then `to_dict`. -/
theorem serialize_deserialize_round_trip_witness :
    (checkingRecord.accountType = some "Savings" ∨
       checkingRecord.accountType = some "Checking") ∧
    ((Account.from_dict checkingRecord "t").to_dict.balance = checkingRecord.balance ∧
     (Account.from_dict checkingRecord "t").to_dict.accountType = checkingRecord.accountType ∧
     (Account.from_dict checkingRecord "t").to_dict.transactions = checkingRecord.transactions ∧
     (checkingRecord.accountType = some "Savings" →
       (Account.from_dict checkingRecord "t").variant = Variant.savings) ∧
     (checkingRecord.accountType = some "Checking" →
       (Account.from_dict checkingRecord "t").variant = Variant.checking)) :=
  ⟨Or.inr rfl,
   serialize_deserialize_round_trip checkingRecord "t" (Or.inr rfl)
     250 rfl [{ details := "Deposited $250" }] rfl⟩

/-- Claim C6 counterexample: a record whose `account_type` is the
unrecognized string `"Premium"` does NOT deserialize to the Savings variant —
`Account.from_dict` falls through to constructing the plain base `Account`
(for which `withdraw` raises `NotImplementedError`), and it even keeps the
label `"Premium"` rather than `"Savings"`. -/
theorem from_dict_premium_not_savings :
    (Account.from_dict premiumRecord "t").variant ≠ Variant.savings ∧
    (Account.from_dict premiumRecord "t").accountType ≠ "Savings" := by
  constructor <;>
    simp [premiumRecord, Account.from_dict, Account.init]

/-- Claim C6 amended: for every record whose `account_type` is missing or is
any value other than `"Savings"`/`"Checking"`, `from_dict` constructs the
plain base `Account` (the variant on which `withdraw` raises
`NotImplementedError`), whose `account_type` label is taken verbatim from the
record when present and defaults to `"Savings"` only when the field is
missing; the Savings variant itself is never the fallback. -/
theorem from_dict_fallback_is_base_account (x : Record) (now : String)
    (h1 : x.accountType ≠ some "Savings") (h2 : x.accountType ≠ some "Checking") :
    (Account.from_dict x now).variant = Variant.base ∧
    (Account.from_dict x now).accountType = x.accountType.getD "Savings" ∧
    (∀ now2 amount, Account.withdraw (Account.from_dict x now) now2 amount = none) := by
  refine ⟨?_, ?_, ?_⟩ <;>
    simp [Account.from_dict, h1, h2, Account.init, Account.withdraw]

/-- Claim C6 (amended) witness: the `"Premium"` record deserializes to a base
account labelled `"Premium"`, and a record with no `account_type` at all to a
base account labelled `"Savings"`; in both cases `withdraw` raises. -/
theorem from_dict_fallback_is_base_account_witness :
    ((Account.from_dict premiumRecord "t").variant = Variant.base ∧
     (Account.from_dict premiumRecord "t").accountType =
       premiumRecord.accountType.getD "Savings" ∧
     (∀ now2 amount,
       Account.withdraw (Account.from_dict premiumRecord "t") now2 amount = none)) ∧
    ((Account.from_dict kindlessRecord "t").variant = Variant.base ∧
     (Account.from_dict kindlessRecord "t").accountType =
       kindlessRecord.accountType.getD "Savings" ∧
     (∀ now2 amount,
       Account.withdraw (Account.from_dict kindlessRecord "t") now2 amount = none)) :=
  ⟨from_dict_fallback_is_base_account premiumRecord "t" (by decide) (by decide),
   from_dict_fallback_is_base_account kindlessRecord "t" (by decide) (by decide)⟩

/-- Claim C10: for every serialized record, deserialization takes the
balance verbatim from the record's balance field (defaulting to `0` only when
the field is missing) and replaces the transaction log wholesale with the
record's transactions field (discarding the creation entry produced by the
constructor): a record with no transactions field yields an empty log, and a
record whose balance disagrees with its last entry's `running_balance` is
reconstructed as-is, with no consistency check — as the concrete mismatching
record `mismatchedRecord` (balance `999`, sole entry at `5`) shows. -/
theorem from_dict_copies_balance_and_transactions (d : Record) (now : String) :
    ((Account.from_dict d now).balance = d.balance.getD 0 ∧
     (Account.from_dict d now).transactions = d.transactions.getD [] ∧
     (SavingsAccount.from_dict d now).balance = d.balance.getD 0 ∧
     (SavingsAccount.from_dict d now).transactions = d.transactions.getD [] ∧
     (CheckingAccount.from_dict d now).balance = d.balance.getD 0 ∧
     (CheckingAccount.from_dict d now).transactions = d.transactions.getD []) ∧
    ((Account.from_dict { accountType := some "Savings" } "t").transactions = [] ∧
     (Account.from_dict mismatchedRecord "t").balance = 999 ∧
     (Account.from_dict mismatchedRecord "t").transactions =
       [{ runningBalance := some 5 }]) := by
  constructor
  · unfold Account.from_dict
    split_ifs <;>
      simp [SavingsAccount.from_dict, CheckingAccount.from_dict,
        SavingsAccount.init, CheckingAccount.init, Account.init]
  · refine ⟨?_, ?_, ?_⟩ <;>
      simp [mismatchedRecord, Account.from_dict, SavingsAccount.from_dict,
        SavingsAccount.init, Account.init]

theorem contains_created_withdrawal :
    containsSubstr "Account created" "Withdrawal" = false := by decide

theorem contains_deposit_withdrawal :
    containsSubstr "Deposit" "Withdrawal" = false := by decide

theorem contains_withdrawal_withdrawal :
    containsSubstr "Withdrawal" "Withdrawal" = true := by decide

/-- Claim C7: for every legacy ledger entry (one with no `action` field,
only a free-text `details` string) and every carried state — in particular
any carried running balance `rb` — the reconciliation step recovers: a
description containing `"Account created with balance"` as action
`"Account created"` with amount the number after the `$` and new balance
that amount; one containing `"Deposited"` (and not the creation text, which
is tested first) as `"Deposit"` with new balance `rb + amount`; one
containing `"Withdrew"` (and neither earlier pattern) as `"Withdrawal"` with
new balance `rb − amount`. In particular `"Deposited $40"` after a carried
balance of `100` yields `(Deposit, 40, 140)`. -/
theorem legacy_entry_reconciliation (st : Option String × Option ℚ × ℚ)
    (ts : String) (eamt : ℚ) (erb : Option ℚ) (d : String) (amt : ℚ) :
    (containsSubstr d "Account created with balance" = true →
      parseAmount d = some amt →
      histStep st (legacyEntry ts d eamt erb) =
        Except.ok ((some "Account created", some amt, amt),
          { timestamp := ts, action := "Account created", amount := amt,
            negated := false, running_balance := amt })) ∧
    (containsSubstr d "Account created with balance" = false →
      containsSubstr d "Deposited" = true →
      parseAmount d = some amt →
      histStep st (legacyEntry ts d eamt erb) =
        Except.ok ((some "Deposit", some amt, st.2.2 + amt),
          { timestamp := ts, action := "Deposit", amount := amt,
            negated := false, running_balance := st.2.2 + amt })) ∧
    (containsSubstr d "Account created with balance" = false →
      containsSubstr d "Deposited" = false →
      containsSubstr d "Withdrew" = true →
      parseAmount d = some amt →
      histStep st (legacyEntry ts d eamt erb) =
        Except.ok ((some "Withdrawal", some amt, st.2.2 - amt),
          { timestamp := ts, action := "Withdrawal", amount := amt,
            negated := true, running_balance := st.2.2 - amt })) ∧
    (histStep (none, none, 100) { details := "Deposited $40" } =
      Except.ok ((some "Deposit", some 40, 140),
        { timestamp := "", action := "Deposit", amount := 40,
          negated := false, running_balance := 140 })) := by
  refine ⟨?_, ?_, ?_, ?_⟩
  · intro h1 hp
    simp [histStep, legacyEntry, h1, hp, contains_created_withdrawal]
  · intro h1 h2 hp
    simp [histStep, legacyEntry, h1, h2, hp, contains_deposit_withdrawal]
  · intro h1 h2 h3 hp
    simp [histStep, legacyEntry, h1, h2, h3, hp, contains_withdrawal_withdrawal]
  · have h2 : containsSubstr "Deposited $40" "Deposited" = true := by decide
    have h1 : containsSubstr "Deposited $40" "Account created with balance" = false := by
      decide
    have hp : parseAmount "Deposited $40" = some 40 := by decide
    simp [histStep, h1, h2, hp, contains_deposit_withdrawal]
    norm_num

/-- Claim C7 witness: the `"Deposited $40"` instance of the second branch at
carried balance `100`, with its pattern-matching hypotheses checked. -/
theorem legacy_entry_reconciliation_witness :
    (containsSubstr "Deposited $40" "Account created with balance" = false ∧
     containsSubstr "Deposited $40" "Deposited" = true ∧
     parseAmount "Deposited $40" = some 40) ∧
    histStep (none, none, 100) (legacyEntry "" "Deposited $40" 0 none) =
      Except.ok ((some "Deposit", some 40, (100 : ℚ) + 40),
        { timestamp := "", action := "Deposit", amount := 40,
          negated := false, running_balance := (100 : ℚ) + 40 }) :=
  ⟨⟨by decide, by decide, by decide⟩,
   (legacy_entry_reconciliation (none, none, 100) "" 0 none "Deposited $40" 40).2.1
     (by decide) (by decide) (by decide)⟩

/-- Claim C8 is violated by the code (code_bug): a legacy entry whose
description matches none of the three recognized patterns is NOT surfaced as
a data-quality warning. If it is the first entry, the loop reads the
never-assigned locals `action`/`amount` (Python raises UnboundLocalError);
otherwise the loop silently reuses the previous entry's action and amount and
leaves the running balance unchanged, emitting a bogus duplicate row with no
warning of any kind — here `"Monthly fee $5"` after `"Deposited $40"` is
reported as a second `(Deposit, 40, 40)` row. -/
theorem unrecognized_legacy_not_flagged :
    show_transaction_history (accountWithTransactions
        [{ details := "Monthly fee $5" }]) = Except.error HistErr.unboundLocal ∧
    show_transaction_history (accountWithTransactions
        [{ details := "Deposited $40" }, { details := "Monthly fee $5" }]) =
      Except.ok
        [{ timestamp := "", action := "Deposit", amount := 40, negated := false,
           running_balance := 40 },
         { timestamp := "", action := "Deposit", amount := 40, negated := false,
           running_balance := 40 }] := by
  have hno1 : containsSubstr "Monthly fee $5" "Account created with balance" = false := by
    decide
  have hno2 : containsSubstr "Monthly fee $5" "Deposited" = false := by decide
  have hno3 : containsSubstr "Monthly fee $5" "Withdrew" = false := by decide
  have hy1 : containsSubstr "Deposited $40" "Account created with balance" = false := by
    decide
  have hy2 : containsSubstr "Deposited $40" "Deposited" = true := by decide
  have hp : parseAmount "Deposited $40" = some 40 := by decide
  constructor
  · simp [show_transaction_history, accountWithTransactions, historyRowsAux, histStep,
      hno1, hno2, hno3]
  · simp [show_transaction_history, accountWithTransactions, historyRowsAux, histStep,
      hno1, hno2, hno3, hy1, hy2, hp, contains_deposit_withdrawal, Except.map]

/-- Claim C9: `create_account` applies its checks in the order: email syntax
against the address pattern, email uniqueness among existing accounts,
name/email non-emptiness, `initial_balance ≥ 0`, kind in
`{Checking, Savings}` — the reported failure is always the first failing
check in that order — and whenever any check fails the operation aborts with
the store unchanged (no account added). -/
theorem create_account_validation_order (accounts : List Account)
    (name email account_type : String) (b : ℚ)
    (sa pc ci co : Option String) (num now : String) :
    (∀ e s, Bank.create_account accounts name email account_type b sa pc ci co num now =
        (some e, s) → s = accounts) ∧
    (matchEmail email = false →
      (Bank.create_account accounts name email account_type b sa pc ci co num now).1 =
        some CreateErr.invalidEmail) ∧
    (matchEmail email = true →
      accounts.any (fun a => a.email = some email) = true →
      (Bank.create_account accounts name email account_type b sa pc ci co num now).1 =
        some CreateErr.duplicateEmail) ∧
    (matchEmail email = true →
      accounts.any (fun a => a.email = some email) = false →
      (name = "" ∨ email = "") →
      (Bank.create_account accounts name email account_type b sa pc ci co num now).1 =
        some CreateErr.emptyField) ∧
    (matchEmail email = true →
      accounts.any (fun a => a.email = some email) = false →
      name ≠ "" → email ≠ "" → b < 0 →
      (Bank.create_account accounts name email account_type b sa pc ci co num now).1 =
        some CreateErr.negativeBalance) ∧
    (matchEmail email = true →
      accounts.any (fun a => a.email = some email) = false →
      name ≠ "" → email ≠ "" → 0 ≤ b →
      account_type ≠ "Checking" → account_type ≠ "Savings" →
      (Bank.create_account accounts name email account_type b sa pc ci co num now).1 =
        some CreateErr.badType) ∧
    (matchEmail email = true →
      accounts.any (fun a => a.email = some email) = false →
      name ≠ "" → email ≠ "" → 0 ≤ b →
      (account_type = "Checking" ∨ account_type = "Savings") →
      (Bank.create_account accounts name email account_type b sa pc ci co num now).1 =
        none) := by
  refine ⟨?_, ?_, ?_, ?_, ?_, ?_, ?_⟩
  · intro e s hes
    unfold Bank.create_account at hes
    split_ifs at hes <;> simp_all
  · intro h1
    simp [Bank.create_account, h1]
  · intro h1 h2
    simp [Bank.create_account, h1, h2]
  · intro h1 h2 h3
    simp [Bank.create_account, h1, h2, h3]
  · intro h1 h2 h3 h4 h5
    simp [Bank.create_account, h1, h2, h3, h4, h5]
  · intro h1 h2 h3 h4 h5 h6 h7
    simp [Bank.create_account, h1, h2, h3, h4, not_lt.mpr h5, h6, h7]
  · intro h1 h2 h3 h4 h5 h6
    simp [Bank.create_account, h1, h2, h3, h4, not_lt.mpr h5, h6]

/-- Claim C9 witness: with a store containing one Savings account under
`a@b.c`, creating with the malformed email `"bad"` reports the syntax
failure, creating with the duplicate `a@b.c` reports the duplicate, creating
with a negative balance reports it, and in each case the store is returned
unchanged. -/
theorem create_account_validation_order_witness :
    (matchEmail "bad" = false ∧
      (Bank.create_account
          [SavingsAccount.init (some "A") (some "1") (some "a@b.c") 5
            none none none none "t"]
          "Bob" "bad" "Savings" 10 none none none none "2" "u").1 =
        some CreateErr.invalidEmail) ∧
    (matchEmail "a@b.c" = true ∧
      List.any
        [SavingsAccount.init (some "A") (some "1") (some "a@b.c") 5
          none none none none "t"]
        (fun a => a.email = some "a@b.c") = true ∧
      (Bank.create_account
          [SavingsAccount.init (some "A") (some "1") (some "a@b.c") 5
            none none none none "t"]
          "Bob" "a@b.c" "Savings" 10 none none none none "2" "u").1 =
        some CreateErr.duplicateEmail) ∧
    (Bank.create_account
        [SavingsAccount.init (some "A") (some "1") (some "a@b.c") 5
          none none none none "t"]
        "Bob" "x@y.z" "Savings" (-1) none none none none "2" "u").1 =
      some CreateErr.negativeBalance ∧
    Bank.create_account
        [SavingsAccount.init (some "A") (some "1") (some "a@b.c") 5
          none none none none "t"]
        "Bob" "bad" "Savings" 10 none none none none "2" "u" =
      (some CreateErr.invalidEmail,
        [SavingsAccount.init (some "A") (some "1") (some "a@b.c") 5
          none none none none "t"]) :=
  ⟨⟨by decide,
    (create_account_validation_order
        [SavingsAccount.init (some "A") (some "1") (some "a@b.c") 5
          none none none none "t"]
        "Bob" "bad" "Savings" 10 none none none none "2" "u").2.1 (by decide)⟩,
   ⟨by decide,
    by simp [SavingsAccount.init, Account.init],
    (create_account_validation_order
        [SavingsAccount.init (some "A") (some "1") (some "a@b.c") 5
          none none none none "t"]
        "Bob" "a@b.c" "Savings" 10 none none none none "2" "u").2.2.1 (by decide)
      (by simp [SavingsAccount.init, Account.init])⟩,
   (create_account_validation_order
        [SavingsAccount.init (some "A") (some "1") (some "a@b.c") 5
          none none none none "t"]
        "Bob" "x@y.z" "Savings" (-1) none none none none "2" "u").2.2.2.2.1 (by decide)
      (by simp [SavingsAccount.init, Account.init])
      (by decide) (by decide) (by norm_num),
   by
    have hfst := (create_account_validation_order
        [SavingsAccount.init (some "A") (some "1") (some "a@b.c") 5
          none none none none "t"]
        "Bob" "bad" "Savings" 10 none none none none "2" "u").2.1 (by decide)
    have hsnd := (create_account_validation_order
        [SavingsAccount.init (some "A") (some "1") (some "a@b.c") 5
          none none none none "t"]
        "Bob" "bad" "Savings" 10 none none none none "2" "u").1
    rcases hres : Bank.create_account
        [SavingsAccount.init (some "A") (some "1") (some "a@b.c") 5
          none none none none "t"]
        "Bob" "bad" "Savings" 10 none none none none "2" "u" with ⟨e?, s⟩
    rw [hres] at hfst hsnd
    simp only at hfst
    subst hfst
    rw [hsnd CreateErr.invalidEmail s rfl]⟩

end BankUCB
